import Mathlib

/-!
Verification of the stripe-metrics-exporter aggregation pipeline
(`exporter.py`): plan resolution, the subscription/MRR pass, the 24h
charge pass, the invoice-based per-plan pass, gauge publication and the
refresh loop's cycle-local error handling.

Numeric model: Python floats are modelled as rationals (`ℚ`); Python
`int` amounts in minor currency units are modelled as `Int`/`Nat`.
Python `None` becomes `Option.none`; Python truthiness of optional
strings (`None` and `""` are falsy) and of optional non-negative
integers (`None` and `0` are falsy) is modelled explicitly.  External
SDK calls (`stripe.Subscription.list`, `stripe.Product.retrieve`,
`stripe.Charge.list`, `stripe.Invoice.retrieve`) are an environment of
`Except`-valued functions: `.error ()` models a raised exception.
-/

namespace StripeExporter

/-- Association-list lookup (first match), modelling Python `dict` reads. -/
def alookup {α β : Type} [DecidableEq α] : List (α × β) → α → Option β
  | [], _ => none
  | kv :: rest, k => if kv.1 = k then some kv.2 else alookup rest k

/-- Association-list write, modelling Python `dict` assignment: replaces the
first entry with the key, or appends a new entry. -/
def upsert {α β : Type} [DecidableEq α] : List (α × β) → α → β → List (α × β)
  | [], k, v => [(k, v)]
  | kv :: rest, k, v => if kv.1 = k then (k, v) :: rest else kv :: upsert rest k v

/-- The keys of an association list, in insertion order. -/
def keysOf {α β : Type} (m : List (α × β)) : List α := m.map Prod.fst

/-- `bump m k v` models `m[k] = m.get(k, 0) + v`. -/
def bump {α : Type} [DecidableEq α] (m : List (α × ℚ)) (k : α) (v : ℚ) : List (α × ℚ) :=
  upsert m k ((alookup m k).getD 0 + v)

/-- Decidable equality for `Except`, so that concrete runs of the
fallible operations can be checked by `decide`. -/
instance {ε α : Type} [DecidableEq ε] [DecidableEq α] : DecidableEq (Except ε α) := by
  intro x y
  cases x with
  | ok a =>
    cases y with
    | ok b =>
      by_cases h : a = b
      · exact isTrue (by rw [h])
      · exact isFalse (by intro hc; cases hc; exact h rfl)
    | error b => exact isFalse (by intro hc; cases hc)
  | error a =>
    cases y with
    | ok b => exact isFalse (by intro hc; cases hc)
    | error b =>
      by_cases h : a = b
      · exact isTrue (by rw [h])
      · exact isFalse (by intro hc; cases hc; exact h rfl)

/-- Python truthiness of an optional string: `None` and `""` are falsy. -/
def truthyStr (o : Option String) : Bool := o.getD "" != ""

/-- Python `x or d` for an optional non-negative integer: `None` and `0`
are falsy and yield the default. -/
def orDefaultNat (o : Option Nat) (d : Nat) : Nat :=
  if o.getD 0 = 0 then d else o.getD 0

/-- A Stripe price attached to a subscription item
(`item.price` in `fetch_metrics`): `product` is the product id string. -/
structure Price where
  id : String
  unit_amount : Option Int
  nickname : Option String
  product : String
deriving DecidableEq

/-- A subscription line item (`item` in `fetch_metrics`). -/
structure SubItem where
  price : Price
  quantity : Option Nat
deriving DecidableEq

/-- An active subscription record (`s` in `fetch_metrics`). -/
structure Subscription where
  items : List SubItem
deriving DecidableEq

/-- An expanded balance transaction (`c.balance_transaction`). -/
structure BalanceTransaction where
  fee : Int
  net : Int
deriving DecidableEq

/-- A charge record (`c` in `fetch_charge_metrics`); `balance_transaction`
is `none` when the expanded per-charge fee data is unavailable. -/
structure Charge where
  amount : Int
  paid : Bool
  status : String
  invoice : Option String
  balance_transaction : Option BalanceTransaction
deriving DecidableEq

/-- The price on an invoice line (`line.price`): here `product` is an
expanded object, of which only `getattr(price.product, "name", None)`
is read, modelled as `product_name`. -/
structure LinePrice where
  id : String
  unit_amount : Option Int
  nickname : Option String
  product_name : Option String
deriving DecidableEq

/-- An invoice line item (`line` in `fetch_metrics`). -/
structure InvoiceLine where
  type : String
  price : LinePrice
  quantity : Option Nat
deriving DecidableEq

/-- A retrieved invoice (`inv` in `fetch_metrics`). -/
structure Invoice where
  id : String
  lines : List InvoiceLine
deriving DecidableEq

/-- The SDK charge-status constant compared against `c.status`
(the collaborator contract fixes it to the string below). -/
def ChargeStatusSucceeded : String := "succeeded"

/-- The SDK invoice-line-type constant compared against `line.type`. -/
def InvoiceLineItemTypeSubscription : String := "subscription"

/-- The external billing API, as seen by one refresh cycle: each
operation either returns data or raises (`.error ()`). -/
structure Env where
  subsList : Except Unit (List Subscription)
  productName : String → Except Unit (Option String)
  chargeList : Except Unit (List Charge)
  invoiceRetrieve : String → Except Unit Invoice

/-- The product-name cache: product id ↦ the stored `Product.retrieve(..).name`
value (which the code stores as-is, even when `None` or empty). -/
abbrev ProductCache := List (String × Option String)

/-- `cache.setdefault(k, v)`: returns the stored value on a hit (cache
unchanged), otherwise stores and returns `v`. -/
def setdefault (cache : ProductCache) (k : String) (v : Option String) :
    Option String × ProductCache :=
  match alookup cache k with
  | some v0 => (v0, cache)
  | none => (v, cache ++ [(k, v)])

/-- Plan resolution for one subscription item, from `fetch_metrics`:

`plan_name = price.nickname or product_name_cache.setdefault(price.product,
stripe.Product.retrieve(price.product).name) or price.id`.

Python evaluates `setdefault`'s second argument eagerly, so whenever the
nickname is falsy one `Product.retrieve` call is issued, cache hit or not;
the returned `Nat` counts the `Product.retrieve` calls issued. -/
def resolvePlanName (env : Env) (cache : ProductCache) (p : Price) :
    Except Unit (String × ProductCache × Nat) :=
  if truthyStr p.nickname then .ok (p.nickname.getD "", cache, 0)
  else do
    let fetched ← env.productName p.product
    let (v, cache') := setdefault cache p.product fetched
    .ok (if truthyStr v then v.getD "" else p.id, cache', 1)

/-- State accumulated by the subscription pass of `fetch_metrics`
(lines 127–151): `calls` counts `Product.retrieve` calls issued. -/
structure SubState where
  total : Nat
  counts : List (String × ℚ)
  mrrs : List (String × ℚ)
  net_mrrs : List (String × ℚ)
  cache : ProductCache
  calls : Nat
deriving DecidableEq

/-- The effective quantity of a line: `item.quantity or 1`. -/
def effQty (q : Option Nat) : Nat := orDefaultNat q 1

/-- The body of the inner `for item in s["items"].data` loop. -/
def itemStep (fp ff : ℚ) (env : Env) (st : SubState) (item : SubItem) :
    Except Unit SubState := do
  let (plan_name, cache', n) ← resolvePlanName env st.cache item.price
  let qty := effQty item.quantity
  let gross : ℚ := ((item.price.unit_amount.getD 0 : ℚ) * (qty : ℚ)) / 100
  let net : ℚ := gross * (1 - fp) - ff * (qty : ℚ)
  .ok { total := st.total,
        counts := bump st.counts plan_name (qty : ℚ),
        mrrs := bump st.mrrs plan_name gross,
        net_mrrs := bump st.net_mrrs plan_name net,
        cache := cache',
        calls := st.calls + n }

/-- The body of the outer `for s in subs_iter` loop: `total_subs += 1`,
then every line item of the subscription. -/
def subscriptionStep (fp ff : ℚ) (env : Env) (st : SubState) (s : Subscription) :
    Except Unit SubState :=
  s.items.foldlM (itemStep fp ff env) { st with total := st.total + 1 }

/-- The whole subscription pass of `fetch_metrics`: stream the active
subscriptions and accumulate counts, gross MRR and net MRR by plan,
starting from empty dicts and an empty product-name cache
(the cache is re-created at the top of every cycle). -/
def subscriptionPass (fp ff : ℚ) (env : Env) : Except Unit SubState := do
  let subs ← env.subsList
  subs.foldlM (subscriptionStep fp ff env) ⟨0, [], [], [], [], 0⟩

/-- The filter of `fetch_charge_metrics`, line 106:
`c.paid and c.status == stripe.ChargeStatusSucceeded`. -/
def isSuccess (c : Charge) : Bool := c.paid && c.status == ChargeStatusSucceeded

/-- `sum(c.balance_transaction.fee for c in successes)`: raises
(`.error ()`) at the first charge whose balance transaction is absent. -/
def sumFees : List Charge → Except Unit Int
  | [] => .ok 0
  | c :: cs =>
    match c.balance_transaction with
    | none => .error ()
    | some bt => do
      let rest ← sumFees cs
      .ok (bt.fee + rest)

/-- `sum(c.balance_transaction.net for c in successes)`. -/
def sumNets : List Charge → Except Unit Int
  | [] => .ok 0
  | c :: cs =>
    match c.balance_transaction with
    | none => .error ()
    | some bt => do
      let rest ← sumNets cs
      .ok (bt.net + rest)

/-- The five global 24h values computed by `fetch_charge_metrics`. -/
structure ChargeStats where
  count : Nat
  gross : ℚ
  avg : ℚ
  fees : ℚ
  net : ℚ
deriving DecidableEq

/-- `fetch_charge_metrics` (lines 99–118): list the window's charges,
filter to successes, and compute count, gross, average, fees and net.
All five gauge writes happen after the fee/net sums, so when a balance
transaction is missing the function raises before publishing anything;
the caller publishes the returned stats (see `publishChargeStats`). -/
def fetch_charge_metrics (env : Env) : Except Unit (ChargeStats × List Charge) := do
  let charges ← env.chargeList
  let successes := charges.filter isSuccess
  let gross_cents : Int := (successes.map Charge.amount).sum
  let fees_cents ← sumFees successes
  let net_cents ← sumNets successes
  .ok ({ count := successes.length,
         gross := (gross_cents : ℚ) / 100,
         avg := if successes.isEmpty then 0
                else ((gross_cents : ℚ) / (successes.length : ℚ)) / 100,
         fees := (fees_cents : ℚ) / 100,
         net := (net_cents : ℚ) / 100 }, successes)

/-- The three-tier fallback used inline for invoice lines, line 181:
`price.nickname or getattr(price.product, "name", None) or price.id`. -/
def planFallback (nickname product_name : Option String) (pid : String) : String :=
  if truthyStr nickname then nickname.getD ""
  else if truthyStr product_name then product_name.getD ""
  else pid

/-- State of the 24h-by-plan invoice pass (lines 165–193); the invoice
cache lives only for the current cycle. -/
structure InvState where
  pay_counts : List (String × ℚ)
  pay_revenues : List (String × ℚ)
  pay_net : List (String × ℚ)
  invoice_cache : List (String × Invoice)
deriving DecidableEq

/-- The body of the `for line in inv.lines.data` loop (lines 177–193):
skip non-subscription lines, resolve the plan inline, and accumulate
count, gross revenue and net revenue (using the matching charge's
balance-transaction fee when found, else the estimated fee). -/
def lineStep (fp ff : ℚ) (successes : List Charge) (invId : String)
    (st : InvState) (line : InvoiceLine) : InvState :=
  if line.type != InvoiceLineItemTypeSubscription then st
  else
    let p := line.price
    let plan_name := planFallback p.nickname p.product_name p.id
    let qty := effQty line.quantity
    let gross : ℚ := ((p.unit_amount.getD 0 : ℚ) * (qty : ℚ)) / 100
    let bt := match successes.find? (fun c => c.invoice == some invId) with
      | some c => c.balance_transaction
      | none => none
    let fee : ℚ := match bt with
      | some b => (b.fee : ℚ) / 100
      | none => gross * fp + ff
    let net := gross - fee
    { st with pay_counts := bump st.pay_counts plan_name (qty : ℚ),
              pay_revenues := bump st.pay_revenues plan_name gross,
              pay_net := bump st.pay_net plan_name net }

/-- The body of the `for c in successes` loop (lines 169–193): skip
charges with a falsy invoice reference, retrieve the invoice on a cache
miss, cache it, and process its lines. -/
def chargeStep (fp ff : ℚ) (env : Env) (successes : List Charge)
    (st : InvState) (c : Charge) : Except Unit InvState :=
  if c.invoice.getD "" = "" then .ok st
  else do
    let invId := c.invoice.getD ""
    let inv ← match alookup st.invoice_cache invId with
      | some cached => .ok cached
      | none => env.invoiceRetrieve invId
    let st1 : InvState := { st with invoice_cache := upsert st.invoice_cache invId inv }
    .ok (inv.lines.foldl (lineStep fp ff successes inv.id) st1)

/-- The whole 24h-by-plan invoice pass, starting from empty dicts. -/
def invoicePass (fp ff : ℚ) (env : Env) (successes : List Charge) :
    Except Unit InvState :=
  successes.foldlM (chargeStep fp ff env successes) ⟨[], [], [], []⟩

/-- A gauge instance: metric name plus the optional `plan_name` label. -/
abbrev GaugeKey := String × Option String

/-- The metrics registry: last-set value per gauge instance; a key that
is absent was never set. -/
abbrev Gauges := List (GaugeKey × ℚ)

/-- `gauge.set(v)`. -/
def gaugeSet (g : Gauges) (k : GaugeKey) (v : ℚ) : Gauges := upsert g k v

def active_subs : GaugeKey := ("stripe_active_subscriptions", none)

def subs_count_by_plan (plan : String) : GaugeKey :=
  ("stripe_active_subscriptions_by_plan", some plan)

def subs_mrr_by_plan (plan : String) : GaugeKey :=
  ("stripe_subscription_mrr_by_plan", some plan)

def subs_net_mrr_by_plan (plan : String) : GaugeKey :=
  ("stripe_net_subscription_mrr_by_plan", some plan)

def payment_count_24h : GaugeKey := ("stripe_successful_payments_last_24h", none)

def total_revenue_24h : GaugeKey := ("stripe_total_revenue_last_24h", none)

def avg_payment_24h : GaugeKey := ("stripe_avg_payment_amount_last_24h", none)

def fees_24h : GaugeKey := ("stripe_fees_last_24h", none)

def net_revenue_24h : GaugeKey := ("stripe_net_revenue_last_24h", none)

def payment_count_24h_by_plan (plan : String) : GaugeKey :=
  ("stripe_successful_payments_last_24h_by_plan", some plan)

def revenue_24h_by_plan (plan : String) : GaugeKey :=
  ("stripe_total_revenue_last_24h_by_plan", some plan)

def revenue_net_24h_by_plan (plan : String) : GaugeKey :=
  ("stripe_net_revenue_last_24h_by_plan", some plan)

/-- `for name, v in m.items(): metric.labels(plan_name=name).set(v)`. -/
def publishByPlan (g : Gauges) (metric : String) (m : List (String × ℚ)) : Gauges :=
  m.foldl (fun acc kv => gaugeSet acc (metric, some kv.1) kv.2) g

/-- The subscription-pass gauge writes, lines 153–159. -/
def publishSub (g : Gauges) (st : SubState) : Gauges :=
  publishByPlan
    (publishByPlan
      (publishByPlan (gaugeSet g active_subs (st.total : ℚ))
        "stripe_active_subscriptions_by_plan" st.counts)
      "stripe_subscription_mrr_by_plan" st.mrrs)
    "stripe_net_subscription_mrr_by_plan" st.net_mrrs

/-- The five global gauge writes of `fetch_charge_metrics`, lines 112–116. -/
def publishChargeStats (g : Gauges) (st : ChargeStats) : Gauges :=
  gaugeSet
    (gaugeSet
      (gaugeSet
        (gaugeSet (gaugeSet g payment_count_24h (st.count : ℚ))
          total_revenue_24h st.gross)
        avg_payment_24h st.avg)
      fees_24h st.fees)
    net_revenue_24h st.net

/-- The 24h-by-plan gauge writes, lines 195–200. -/
def publishInv (g : Gauges) (st : InvState) : Gauges :=
  publishByPlan
    (publishByPlan
      (publishByPlan g "stripe_successful_payments_last_24h_by_plan" st.pay_counts)
      "stripe_total_revenue_last_24h_by_plan" st.pay_revenues)
    "stripe_net_revenue_last_24h_by_plan" st.pay_net

/-- One iteration of the `while True` body of `fetch_metrics`, inside its
`try`: the subscription pass, its publication, the charge pass (which
publishes the five global 24h gauges itself), and the invoice pass with
its publication.  On an exception the error value carries the gauges as
of the failure point — exactly the writes issued before it; all gauge
writes sit after the fallible calls of their own stage. -/
def cycleBody (fp ff : ℚ) (env : Env) (g : Gauges) : Except Gauges Gauges :=
  match subscriptionPass fp ff env with
  | .error _ => .error g
  | .ok sst =>
    let g1 := publishSub g sst
    match fetch_charge_metrics env with
    | .error _ => .error g1
    | .ok (cst, successes) =>
      let g2 := publishChargeStats g1 cst
      match invoicePass fp ff env successes with
      | .error _ => .error g2
      | .ok ist => .ok (publishInv g2 ist)

/-- One full cycle of `fetch_metrics` including its `except Exception`
handler: a raised exception is caught (logged) and the gauges as of the
failure point are kept. -/
def runCycle (fp ff : ℚ) (env : Env) (g : Gauges) : Gauges :=
  match cycleBody fp ff env g with
  | .ok g1 => g1
  | .error g1 => g1

/-- A finite prefix of the `while True` refresh loop: each scheduled
cycle sees its own environment (the live API data of that cycle). -/
def runLoop (fp ff : ℚ) : List Env → Gauges → Gauges
  | [], g => g
  | env :: rest, g => runLoop fp ff rest (runCycle fp ff env g)

/-- The deterministic outcome of plan resolution for a price against a
fixed environment: the nickname when truthy, else the fetched product
name when truthy, else the price id; `none` when the product lookup
would raise. -/
def resolvedPlan (env : Env) (p : Price) : Option String :=
  if truthyStr p.nickname then some (p.nickname.getD "")
  else
    match env.productName p.product with
    | .error _ => none
    | .ok nm => some (if truthyStr nm then nm.getD "" else p.id)

/-- A cache state is consistent with the environment when every stored
entry is exactly what the corresponding product lookup returns. -/
def cacheConsistent (env : Env) (cache : ProductCache) : Prop :=
  ∀ kv ∈ cache, env.productName kv.1 = .ok kv.2

/-- The summed effective quantity of the line items of one subscription
that resolve to `plan`. -/
def planQty (env : Env) (plan : String) (items : List SubItem) : ℚ :=
  (items.map (fun i =>
    if resolvedPlan env i.price = some plan then (effQty i.quantity : ℚ) else 0)).sum

/-- The summed effective quantity, over all streamed subscriptions, of
the line items resolving to `plan`. -/
def planQtySubs (env : Env) (plan : String) (subs : List Subscription) : ℚ :=
  (subs.map (fun s => planQty env plan s.items)).sum

/-- The alignment invariant of the three by-plan dicts of the
subscription pass: same keys, no duplicates. -/
def subMapsAligned (st : SubState) : Prop :=
  keysOf st.counts = keysOf st.mrrs ∧ keysOf st.counts = keysOf st.net_mrrs ∧
    (keysOf st.counts).Nodup

/-- The per-plan relation between the three dicts of the subscription
pass: net MRR = gross MRR · (1 − fee_percent) − fee_flat · quantity. -/
def netInvariant (fp ff : ℚ) (st : SubState) : Prop :=
  ∀ plan, (alookup st.net_mrrs plan).getD 0 =
    (alookup st.mrrs plan).getD 0 * (1 - fp) - ff * (alookup st.counts plan).getD 0

/-- The fee of a charge's balance transaction, 0 when absent. -/
def btFee (c : Charge) : Int :=
  match c.balance_transaction with
  | some bt => bt.fee
  | none => 0

/-- The net of a charge's balance transaction, 0 when absent. -/
def btNet (c : Charge) : Int :=
  match c.balance_transaction with
  | some bt => bt.net
  | none => 0

/-- Extract the payload of a successful call, with a fallback. -/
def okOr {ε α : Type} (d : α) : Except ε α → α
  | .ok a => a
  | .error _ => d

/-- The default fee percentage (`STRIPE_FEE_PERCENT`, 0.029). -/
def FEE_PERCENT : ℚ := 29 / 1000

/-- The default flat fee (`STRIPE_FEE_FLAT`, 0.30). -/
def FEE_FLAT : ℚ := 3 / 10

/-- The subscription-pass state a concrete environment produces. -/
def subStateOf (env : Env) : SubState :=
  okOr ⟨0, [], [], [], [], 0⟩ (subscriptionPass FEE_PERCENT FEE_FLAT env)

/-- The charge stats a concrete environment produces. -/
def chargeStatsOf (env : Env) : ChargeStats :=
  okOr ⟨0, 0, 0, 0, 0⟩ ((fetch_charge_metrics env).map Prod.fst)

/-- The gauges after one successful cycle from an empty registry. -/
def cycleOkGauges (env : Env) : Gauges :=
  okOr [] ((cycleBody FEE_PERCENT FEE_FLAT env []).map id)

/-- A cycle with one subscription holding two nickname-less line items on
the same product: exercises the product-name cache. -/
def envSharedProduct : Env :=
  { subsList := .ok [⟨[⟨⟨"price_1", some 100, none, "prod_1"⟩, some 1⟩,
                      ⟨⟨"price_1", some 100, none, "prod_1"⟩, some 1⟩]⟩],
    productName := fun s => if s = "prod_1" then .ok (some "Widget") else .error (),
    chargeList := .ok [],
    invoiceRetrieve := fun _ => .error () }

/-- Scenario B: two successful charges of 100¢ and 200¢ (with expanded
balance transactions, no invoices), no subscriptions. -/
def envScenarioB : Env :=
  { subsList := .ok [],
    productName := fun _ => .error (),
    chargeList := .ok [⟨100, true, "succeeded", none, some ⟨5, 95⟩⟩,
                       ⟨200, true, "succeeded", none, some ⟨10, 190⟩⟩],
    invoiceRetrieve := fun _ => .error () }

/-- Scenario D: one successful 100¢ charge with fee 5¢ and net 95¢. -/
def envScenarioD : Env :=
  { subsList := .ok [],
    productName := fun _ => .error (),
    chargeList := .ok [⟨100, true, "succeeded", none, some ⟨5, 95⟩⟩],
    invoiceRetrieve := fun _ => .error () }

/-- One successful charge whose balance transaction was not expanded. -/
def envMissingBt : Env :=
  { subsList := .ok [],
    productName := fun _ => .error (),
    chargeList := .ok [⟨100, true, "succeeded", none, none⟩],
    invoiceRetrieve := fun _ => .error () }

/-- A cycle whose charge listing raises. -/
def envChargeRaises : Env :=
  { subsList := .ok [],
    productName := fun _ => .error (),
    chargeList := .error (),
    invoiceRetrieve := fun _ => .error () }

/-- A cycle with zero subscriptions and zero charges. -/
def envEmptyCycle : Env :=
  { subsList := .ok [],
    productName := fun _ => .error (),
    chargeList := .ok [],
    invoiceRetrieve := fun _ => .error () }

/-- One subscription whose single "Test Plan" line item has quantity 0. -/
def envQtyZero : Env :=
  { subsList := .ok [⟨[⟨⟨"price_1", some 100, some "Test Plan", "prod_1"⟩, some 0⟩]⟩],
    productName := fun _ => .error (),
    chargeList := .ok [],
    invoiceRetrieve := fun _ => .error () }

/-- One subscription with three seats of "Test Plan" at 1000¢. -/
def envThreeSeats : Env :=
  { subsList := .ok [⟨[⟨⟨"price_1", some 100, some "Test Plan", "prod_1"⟩, some 3⟩]⟩],
    productName := fun _ => .error (),
    chargeList := .ok [],
    invoiceRetrieve := fun _ => .error () }

/-- An empty subscription plus a two-item subscription. -/
def envZeroItemSub : Env :=
  { subsList := .ok [⟨[]⟩,
                     ⟨[⟨⟨"price_1", some 100, some "Test Plan", "prod_1"⟩, some 1⟩,
                       ⟨⟨"price_2", some 50, some "Other", "prod_2"⟩, some 4⟩]⟩],
    productName := fun _ => .error (),
    chargeList := .ok [],
    invoiceRetrieve := fun _ => .error () }

/-- An environment whose product "prod_1" has no display name. -/
def envUnnamedProduct : Env :=
  { subsList := .ok [],
    productName := fun s => if s = "prod_1" then .ok none else .error (),
    chargeList := .ok [],
    invoiceRetrieve := fun _ => .error () }

/-- An environment whose product "prod_1" has an empty display name. -/
def envEmptyNameProduct : Env :=
  { subsList := .ok [],
    productName := fun s => if s = "prod_1" then .ok (some "") else .error (),
    chargeList := .ok [],
    invoiceRetrieve := fun _ => .error () }

/-- A nickname-less price on product "prod_1". -/
def priceNoNickname : Price := ⟨"price_1", some 100, none, "prod_1"⟩

/-- The subscription-pass state of `envThreeSeats` under fees ¼ and ½. -/
def sstThreeSeats : SubState :=
  ⟨1, [("Test Plan", 3)], [("Test Plan", 3)], [("Test Plan", 3/4)], [], 0⟩

/-- The gauges after one cycle on `envThreeSeats` under fees ¼ and ½. -/
def gaugesThreeSeats : Gauges :=
  [(("stripe_active_subscriptions", none), 1),
   (("stripe_active_subscriptions_by_plan", some "Test Plan"), 3),
   (("stripe_subscription_mrr_by_plan", some "Test Plan"), 3),
   (("stripe_net_subscription_mrr_by_plan", some "Test Plan"), 3/4),
   (("stripe_successful_payments_last_24h", none), 0),
   (("stripe_total_revenue_last_24h", none), 0),
   (("stripe_avg_payment_amount_last_24h", none), 0),
   (("stripe_fees_last_24h", none), 0),
   (("stripe_net_revenue_last_24h", none), 0)]

-- ─── Theorems ───

theorem alookup_upsert_self {α β : Type} [DecidableEq α] (m : List (α × β)) (k : α) (v : β) :
    alookup (upsert m k v) k = some v := by
  induction m with
  | nil => simp [upsert, alookup]
  | cons kv rest ih =>
    by_cases h : kv.1 = k
    · simp [upsert, h, alookup]
    · simp [upsert, h, alookup, ih]

theorem alookup_upsert_ne {α β : Type} [DecidableEq α] {k k' : α}
    (h : k' ≠ k) (m : List (α × β)) (v : β) :
    alookup (upsert m k v) k' = alookup m k' := by
  induction m with
  | nil => simp [upsert, alookup, h.symm]
  | cons kv rest ih =>
    obtain ⟨a, b⟩ := kv
    by_cases hk : a = k
    · subst hk
      simp [upsert, alookup, h.symm]
    · simp [upsert, hk, alookup, ih]

theorem alookup_bump_self {α : Type} [DecidableEq α] (m : List (α × ℚ)) (k : α) (v : ℚ) :
    alookup (bump m k v) k = some ((alookup m k).getD 0 + v) := by
  simp [bump, alookup_upsert_self]

theorem alookup_bump_ne {α : Type} [DecidableEq α] {k k' : α}
    (h : k' ≠ k) (m : List (α × ℚ)) (v : ℚ) :
    alookup (bump m k v) k' = alookup m k' := by
  simp [bump, alookup_upsert_ne h]

theorem alookup_isSome_iff_mem {α β : Type} [DecidableEq α] (m : List (α × β)) (k : α) :
    (alookup m k).isSome ↔ k ∈ keysOf m := by
  induction m with
  | nil => simp [alookup, keysOf]
  | cons kv rest ih =>
    by_cases h : kv.1 = k
    · simp [alookup, h, keysOf]
    · simp [alookup, h, keysOf, ih, Ne.symm h]

theorem alookup_eq_none_iff_notMem {α β : Type} [DecidableEq α] (m : List (α × β)) (k : α) :
    alookup m k = none ↔ k ∉ keysOf m := by
  rw [← alookup_isSome_iff_mem]
  cases alookup m k <;> simp

theorem keysOf_upsert_of_mem {α β : Type} [DecidableEq α] {m : List (α × β)} {k : α}
    (h : k ∈ keysOf m) (v : β) : keysOf (upsert m k v) = keysOf m := by
  induction m with
  | nil => simp [keysOf] at h
  | cons kv rest ih =>
    by_cases hk : kv.1 = k
    · simp [upsert, hk, keysOf]
    · have hmem : k ∈ keysOf rest := by
        simp [keysOf] at h
        rcases h with h | h
        · exact absurd h.symm hk
        · simpa [keysOf] using h
      simp [upsert, hk, keysOf]
      simpa [keysOf] using ih hmem

theorem keysOf_upsert_of_notMem {α β : Type} [DecidableEq α] {m : List (α × β)} {k : α}
    (h : k ∉ keysOf m) (v : β) : keysOf (upsert m k v) = keysOf m ++ [k] := by
  induction m with
  | nil => simp [upsert, keysOf]
  | cons kv rest ih =>
    have hk : kv.1 ≠ k := by
      intro h2
      exact h (by simp [keysOf, h2])
    have hrest : k ∉ keysOf rest := by
      intro h2
      exact h (by simp [keysOf] at h2 ⊢; exact Or.inr h2)
    simp [upsert, hk, keysOf]
    simpa [keysOf] using ih hrest

theorem keysOf_bump_of_mem {α : Type} [DecidableEq α] {m : List (α × ℚ)} {k : α}
    (h : k ∈ keysOf m) (v : ℚ) : keysOf (bump m k v) = keysOf m :=
  keysOf_upsert_of_mem h _

theorem keysOf_bump_of_notMem {α : Type} [DecidableEq α] {m : List (α × ℚ)} {k : α}
    (h : k ∉ keysOf m) (v : ℚ) : keysOf (bump m k v) = keysOf m ++ [k] :=
  keysOf_upsert_of_notMem h _

theorem alookup_mem {α β : Type} [DecidableEq α] {m : List (α × β)} {k : α} {v : β}
    (h : alookup m k = some v) : (k, v) ∈ m := by
  induction m with
  | nil => simp [alookup] at h
  | cons kv rest ih =>
    obtain ⟨a, b⟩ := kv
    by_cases hk : a = k
    · simp only [alookup, hk, if_pos rfl] at h
      injection h with h
      subst hk
      subst h
      exact List.mem_cons_self _ _
    · simp only [alookup, hk, if_neg hk] at h
      exact List.mem_cons_of_mem _ (ih h)

theorem getD_of_isSome {β : Type} {o : Option β} (d : β) (h : o.isSome) :
    o = some (o.getD d) := by
  cases o with
  | none => cases h
  | some b => rfl

theorem except_bind_ok {ε α β : Type} (a : α) (f : α → Except ε β) :
    (Except.ok a >>= f) = f a := rfl

theorem except_bind_err {ε α β : Type} (e : ε) (f : α → Except ε β) :
    ((Except.error e : Except ε α) >>= f) = Except.error e := rfl

theorem except_pure {ε α : Type} (a : α) : (pure a : Except ε α) = Except.ok a := rfl

theorem runLoop_cons (fp ff : ℚ) (env : Env) (rest : List Env) (g : Gauges) :
    runLoop fp ff (env :: rest) g = runLoop fp ff rest (runCycle fp ff env g) := rfl

theorem alookup_append_single {α β : Type} [DecidableEq α] {m : List (α × β)} {k : α}
    (h : alookup m k = none) (v : β) : alookup (m ++ [(k, v)]) k = some v := by
  induction m with
  | nil => simp [alookup]
  | cons kv rest ih =>
    by_cases hk : kv.1 = k
    · simp [alookup, hk] at h
    · simp only [alookup, hk, if_neg hk] at h
      simp only [List.cons_append, alookup, hk, if_neg hk]
      exact ih h

/-- What a successful resolution means against a consistent cache: the
outcome is the deterministic `resolvedPlan`, and consistency is kept. -/
theorem resolvePlanName_ok {env : Env} {cache : ProductCache} {p : Price}
    {r : String} {cache' : ProductCache} {n : Nat}
    (hc : cacheConsistent env cache)
    (h : resolvePlanName env cache p = .ok (r, cache', n)) :
    resolvedPlan env p = some r ∧ cacheConsistent env cache' := by
  unfold resolvePlanName at h
  by_cases hn : truthyStr p.nickname
  · rw [if_pos hn] at h
    injection h with h
    injection h with h1 h2
    injection h2 with h2 h3
    subst h1
    subst h2
    exact ⟨by simp [resolvedPlan, hn], hc⟩
  · rw [if_neg hn] at h
    cases hpn : env.productName p.product with
    | error e => rw [hpn] at h; cases h
    | ok fetched =>
      rw [hpn, except_bind_ok] at h
      unfold setdefault at h
      cases hl : alookup cache p.product with
      | some v0 =>
        rw [hl] at h
        injection h with h
        injection h with h1 h2
        injection h2 with h2 h3
        subst h2
        have hv0 : env.productName p.product = .ok v0 := hc _ (alookup_mem hl)
        rw [hpn] at hv0
        injection hv0 with hv0
        subst hv0
        exact ⟨by simp [resolvedPlan, hn, hpn, ← h1], hc⟩
      | none =>
        rw [hl] at h
        injection h with h
        injection h with h1 h2
        injection h2 with h2 h3
        subst h2
        refine ⟨by simp [resolvedPlan, hn, hpn, ← h1], ?_⟩
        intro kv hkv
        rcases List.mem_append.mp hkv with hkv | hkv
        · exact hc _ hkv
        · simp at hkv
          rw [hkv]
          exact hpn

/-- Bumping all three by-plan dicts at the same key keeps them aligned. -/
theorem aligned_bump {c m n : List (String × ℚ)}
    (h1 : keysOf c = keysOf m) (h2 : keysOf c = keysOf n) (h3 : (keysOf c).Nodup)
    (k : String) (a b d : ℚ) :
    keysOf (bump c k a) = keysOf (bump m k b) ∧
    keysOf (bump c k a) = keysOf (bump n k d) ∧
    (keysOf (bump c k a)).Nodup := by
  by_cases hk : k ∈ keysOf c
  · rw [keysOf_bump_of_mem hk, keysOf_bump_of_mem (h1 ▸ hk), keysOf_bump_of_mem (h2 ▸ hk)]
    exact ⟨h1, h2, h3⟩
  · rw [keysOf_bump_of_notMem hk, keysOf_bump_of_notMem (h1 ▸ hk),
      keysOf_bump_of_notMem (h2 ▸ hk)]
    refine ⟨by rw [h1], by rw [h2], ?_⟩
    simp [List.nodup_append, h3, hk]

/-- Accumulating one item's net keeps the per-plan net/gross/quantity
relation. -/
theorem netInv_bump {c m n : List (String × ℚ)} {fp ff : ℚ}
    (h : ∀ plan, (alookup n plan).getD 0 =
      (alookup m plan).getD 0 * (1 - fp) - ff * (alookup c plan).getD 0)
    (k : String) (q g : ℚ) :
    ∀ plan, (alookup (bump n k (g * (1 - fp) - ff * q)) plan).getD 0 =
      (alookup (bump m k g) plan).getD 0 * (1 - fp) -
        ff * (alookup (bump c k q) plan).getD 0 := by
  intro plan
  by_cases hp : plan = k
  · subst hp
    simp only [alookup_bump_self, Option.getD_some]
    rw [h plan]
    ring
  · simp only [alookup_bump_ne hp]
    exact h plan

/-- A successful `itemStep` is one successful resolution plus bumps of
the three dicts at the resolved plan. -/
theorem itemStep_ok {fp ff : ℚ} {env : Env} {st : SubState} {item : SubItem}
    {st1 : SubState} (h : itemStep fp ff env st item = .ok st1) :
    ∃ r cache' n, resolvePlanName env st.cache item.price = .ok (r, cache', n) ∧
      st1 = { total := st.total,
              counts := bump st.counts r ((effQty item.quantity : ℚ)),
              mrrs := bump st.mrrs r
                (((item.price.unit_amount.getD 0 : ℚ) * ((effQty item.quantity : ℚ))) / 100),
              net_mrrs := bump st.net_mrrs r
                ((((item.price.unit_amount.getD 0 : ℚ) * ((effQty item.quantity : ℚ))) / 100)
                  * (1 - fp) - ff * ((effQty item.quantity : ℚ))),
              cache := cache',
              calls := st.calls + n } := by
  unfold itemStep at h
  cases hr : resolvePlanName env st.cache item.price with
  | error e => rw [hr, except_bind_err] at h; cases h
  | ok x =>
    obtain ⟨r, cache', n⟩ := x
    rw [hr, except_bind_ok] at h
    injection h with h
    exact ⟨r, cache', n, rfl, h.symm⟩

/-- The combined invariants of the inner item loop: consistency of the
cache, unchanged total, per-plan quantity sums, alignment and the
net-MRR relation. -/
theorem itemsFold_spec (fp ff : ℚ) (env : Env) :
    ∀ (items : List SubItem) (st st' : SubState),
      cacheConsistent env st.cache →
      items.foldlM (itemStep fp ff env) st = .ok st' →
      cacheConsistent env st'.cache ∧
      st'.total = st.total ∧
      (∀ plan, (alookup st'.counts plan).getD 0 =
        (alookup st.counts plan).getD 0 + planQty env plan items) ∧
      (subMapsAligned st → subMapsAligned st') ∧
      (netInvariant fp ff st → netInvariant fp ff st') := by
  intro items
  induction items with
  | nil =>
    intro st st' hc h
    rw [List.foldlM_nil, except_pure] at h
    injection h with h
    subst h
    exact ⟨hc, rfl, by intro plan; simp [planQty], id, id⟩
  | cons i rest ih =>
    intro st st' hc h
    rw [List.foldlM_cons] at h
    cases h1 : itemStep fp ff env st i with
    | error e => rw [h1, except_bind_err] at h; cases h
    | ok st1 =>
      rw [h1, except_bind_ok] at h
      obtain ⟨r, cache', n, hr, hst1⟩ := itemStep_ok h1
      obtain ⟨hres, hcache⟩ := resolvePlanName_ok hc hr
      have hc1 : cacheConsistent env st1.cache := by rw [hst1]; exact hcache
      obtain ⟨ihc, ihtotal, ihcounts, ihal, ihnet⟩ := ih st1 st' hc1 h
      subst hst1
      refine ⟨ihc, ihtotal, ?_, ?_, ?_⟩
      · intro plan
        rw [ihcounts plan]
        simp only [planQty, List.map_cons, List.sum_cons]
        by_cases hp : plan = r
        · subst hp
          rw [alookup_bump_self, Option.getD_some, hres, if_pos rfl]
          ring
        · rw [alookup_bump_ne hp, hres,
            if_neg (by intro hx; injection hx with hx; exact hp hx.symm)]
          ring
      · intro hal0
        apply ihal
        obtain ⟨ha1, ha2, ha3⟩ := hal0
        exact aligned_bump ha1 ha2 ha3 r _ _ _
      · intro hnet0
        apply ihnet
        exact netInv_bump hnet0 r _ _

/-- The same invariants lifted over the outer subscription loop. -/
theorem subsFold_spec (fp ff : ℚ) (env : Env) :
    ∀ (subs : List Subscription) (st st' : SubState),
      cacheConsistent env st.cache →
      subs.foldlM (subscriptionStep fp ff env) st = .ok st' →
      cacheConsistent env st'.cache ∧
      st'.total = st.total + subs.length ∧
      (∀ plan, (alookup st'.counts plan).getD 0 =
        (alookup st.counts plan).getD 0 + planQtySubs env plan subs) ∧
      (subMapsAligned st → subMapsAligned st') ∧
      (netInvariant fp ff st → netInvariant fp ff st') := by
  intro subs
  induction subs with
  | nil =>
    intro st st' hc h
    rw [List.foldlM_nil, except_pure] at h
    injection h with h
    subst h
    exact ⟨hc, by simp, by intro plan; simp [planQtySubs], id, id⟩
  | cons s rest ih =>
    intro st st' hc h
    rw [List.foldlM_cons] at h
    cases h1 : subscriptionStep fp ff env st s with
    | error e => rw [h1, except_bind_err] at h; cases h
    | ok st1 =>
      rw [h1, except_bind_ok] at h
      unfold subscriptionStep at h1
      obtain ⟨c1, t1, q1, a1, n1⟩ :=
        itemsFold_spec fp ff env s.items { st with total := st.total + 1 } st1 hc h1
      obtain ⟨ihc, iht, ihq, iha, ihn⟩ := ih st1 st' c1 h
      refine ⟨ihc, ?_, ?_, ?_, ?_⟩
      · rw [iht, t1, List.length_cons]
        show st.total + 1 + rest.length = st.total + (rest.length + 1)
        omega
      · intro plan
        rw [ihq plan, q1 plan]
        simp only [planQtySubs, List.map_cons, List.sum_cons]
        ring
      · intro h0
        exact iha (a1 h0)
      · intro h0
        exact ihn (n1 h0)

/-- What a successful subscription pass guarantees, from the empty
initial state: total = number of records, per-plan quantity sums,
aligned dicts, and the net-MRR relation. -/
theorem subscriptionPass_ok {fp ff : ℚ} {env : Env} {subs : List Subscription}
    {sst : SubState}
    (hsubs : env.subsList = .ok subs)
    (h : subscriptionPass fp ff env = .ok sst) :
    sst.total = subs.length ∧
    (∀ plan, (alookup sst.counts plan).getD 0 = planQtySubs env plan subs) ∧
    subMapsAligned sst ∧
    netInvariant fp ff sst := by
  unfold subscriptionPass at h
  rw [hsubs, except_bind_ok] at h
  have hc0 : cacheConsistent env ([] : ProductCache) := by
    intro kv hkv
    cases hkv
  obtain ⟨_, htot, hq, hal, hnet⟩ := subsFold_spec fp ff env subs _ sst hc0 h
  refine ⟨by simpa using htot, ?_, ?_, ?_⟩
  · intro plan
    have := hq plan
    simpa [alookup] using this
  · apply hal
    refine ⟨rfl, rfl, ?_⟩
    simp [keysOf]
  · apply hnet
    intro plan
    simp [alookup]

theorem alookup_gaugeSet_self (g : Gauges) (k : GaugeKey) (v : ℚ) :
    alookup (gaugeSet g k v) k = some v :=
  alookup_upsert_self g k v

theorem alookup_gaugeSet_ne {k k' : GaugeKey} (h : k' ≠ k) (g : Gauges) (v : ℚ) :
    alookup (gaugeSet g k v) k' = alookup g k' :=
  alookup_upsert_ne h g v

/-- Publishing a by-plan dict leaves every gauge instance that is not
one of its keys untouched. -/
theorem alookup_publishByPlan_of_ne {metric : String} {key : GaugeKey} :
    ∀ (m : List (String × ℚ)) (g : Gauges),
      (∀ p ∈ keysOf m, key ≠ (metric, some p)) →
      alookup (publishByPlan g metric m) key = alookup g key := by
  intro m
  induction m with
  | nil =>
    intro g _
    rfl
  | cons kv rest ih =>
    intro g hkey
    show alookup (publishByPlan (gaugeSet g (metric, some kv.1) kv.2) metric rest) key = _
    rw [ih _ (fun p hp => hkey p (by simp [keysOf]; right; simpa [keysOf] using hp))]
    exact alookup_gaugeSet_ne (hkey kv.1 (by simp [keysOf])) _ _

/-- Publishing a by-plan dict with distinct keys sets each key's gauge
to its dict value. -/
theorem alookup_publishByPlan_mem {metric : String} :
    ∀ (m : List (String × ℚ)) (g : Gauges) (k : String) (v : ℚ),
      (keysOf m).Nodup → alookup m k = some v →
      alookup (publishByPlan g metric m) (metric, some k) = some v := by
  intro m
  induction m with
  | nil =>
    intro g k v _ h
    cases h
  | cons kv rest ih =>
    intro g k v hnd h
    obtain ⟨a, b⟩ := kv
    have hnd2 : a ∉ keysOf rest ∧ (keysOf rest).Nodup := by
      rw [show keysOf ((a, b) :: rest) = a :: keysOf rest from rfl, List.nodup_cons] at hnd
      exact hnd
    show alookup (publishByPlan (gaugeSet g (metric, some a) b) metric rest) (metric, some k) = _
    by_cases hk : a = k
    · subst hk
      simp only [alookup, if_pos rfl] at h
      injection h with h
      subst h
      rw [alookup_publishByPlan_of_ne rest _
        (fun p hp => by simp; intro he; rw [he] at hnd2; exact hnd2.1 hp)]
      exact alookup_gaugeSet_self _ _ _
    · simp only [alookup, hk, if_neg hk] at h
      exact ih _ k v hnd2.2 h

/-- Gauge writes never remove an already-published instance. -/
theorem gaugeSet_isSome {g : Gauges} {key : GaugeKey}
    (h : (alookup g key).isSome) (k : GaugeKey) (v : ℚ) :
    (alookup (gaugeSet g k v) key).isSome := by
  by_cases hk : key = k
  · subst hk
    rw [alookup_gaugeSet_self]
    rfl
  · rw [alookup_gaugeSet_ne hk]
    exact h

theorem publishByPlan_isSome {key : GaugeKey} {metric : String} :
    ∀ (m : List (String × ℚ)) (g : Gauges),
      (alookup g key).isSome →
      (alookup (publishByPlan g metric m) key).isSome := by
  intro m
  induction m with
  | nil =>
    intro g h
    exact h
  | cons kv rest ih =>
    intro g h
    exact ih _ (gaugeSet_isSome h _ _)

theorem publishSub_isSome {g : Gauges} {key : GaugeKey} {st : SubState}
    (h : (alookup g key).isSome) :
    (alookup (publishSub g st) key).isSome :=
  publishByPlan_isSome _ _ (publishByPlan_isSome _ _ (publishByPlan_isSome _ _
    (gaugeSet_isSome h _ _)))

theorem publishChargeStats_isSome {g : Gauges} {key : GaugeKey} {st : ChargeStats}
    (h : (alookup g key).isSome) :
    (alookup (publishChargeStats g st) key).isSome :=
  gaugeSet_isSome (gaugeSet_isSome (gaugeSet_isSome (gaugeSet_isSome
    (gaugeSet_isSome h _ _) _ _) _ _) _ _) _ _

theorem alookup_publishByPlan_fst_ne {metric : String} {key : GaugeKey}
    (m : List (String × ℚ)) (g : Gauges) (h : key.1 ≠ metric) :
    alookup (publishByPlan g metric m) key = alookup g key :=
  alookup_publishByPlan_of_ne m g (fun p _ heq => h (by rw [heq]))

theorem alookup_publishByPlan_none {metric : String} (m : List (String × ℚ))
    (g : Gauges) (name : String) :
    alookup (publishByPlan g metric m) (name, none) = alookup g (name, none) :=
  alookup_publishByPlan_of_ne m g (fun p _ => by simp)

theorem alookup_publishByPlan_notMem {metric : String} {plan : String}
    (m : List (String × ℚ)) (g : Gauges) (h : plan ∉ keysOf m) :
    alookup (publishByPlan g metric m) (metric, some plan) =
      alookup g (metric, some plan) :=
  alookup_publishByPlan_of_ne m g (fun p hp => by
    intro heq
    injection heq with h1 h2
    injection h2 with h2
    rw [h2] at h
    exact h hp)

theorem alookup_publishSub_active (g : Gauges) (st : SubState) :
    alookup (publishSub g st) ("stripe_active_subscriptions", none) = some ((st.total : ℚ)) := by
  unfold publishSub
  rw [alookup_publishByPlan_none, alookup_publishByPlan_none, alookup_publishByPlan_none]
  exact alookup_gaugeSet_self _ _ _

theorem alookup_publishSub_counts {g : Gauges} {st : SubState} {plan : String} {v : ℚ}
    (hnd : (keysOf st.counts).Nodup) (hv : alookup st.counts plan = some v) :
    alookup (publishSub g st) ("stripe_active_subscriptions_by_plan", some plan) = some v := by
  unfold publishSub
  rw [alookup_publishByPlan_fst_ne _ _ (by simp),
    alookup_publishByPlan_fst_ne _ _ (by simp)]
  exact alookup_publishByPlan_mem _ _ _ _ hnd hv

theorem alookup_publishSub_net {g : Gauges} {st : SubState} {plan : String} {v : ℚ}
    (hnd : (keysOf st.net_mrrs).Nodup) (hv : alookup st.net_mrrs plan = some v) :
    alookup (publishSub g st) ("stripe_net_subscription_mrr_by_plan", some plan) = some v := by
  unfold publishSub
  exact alookup_publishByPlan_mem _ _ _ _ hnd hv

theorem alookup_publishSub_counts_frame {g : Gauges} {st : SubState} {plan : String}
    (h : plan ∉ keysOf st.counts) :
    alookup (publishSub g st) ("stripe_active_subscriptions_by_plan", some plan) =
      alookup g ("stripe_active_subscriptions_by_plan", some plan) := by
  unfold publishSub
  rw [alookup_publishByPlan_fst_ne _ _ (by simp),
    alookup_publishByPlan_fst_ne _ _ (by simp),
    alookup_publishByPlan_notMem _ _ h,
    alookup_gaugeSet_ne (by simp [active_subs]) _ _]

theorem alookup_publishSub_mrr_frame {g : Gauges} {st : SubState} {plan : String}
    (h : plan ∉ keysOf st.mrrs) :
    alookup (publishSub g st) ("stripe_subscription_mrr_by_plan", some plan) =
      alookup g ("stripe_subscription_mrr_by_plan", some plan) := by
  unfold publishSub
  rw [alookup_publishByPlan_fst_ne _ _ (by simp),
    alookup_publishByPlan_notMem _ _ h,
    alookup_publishByPlan_fst_ne _ _ (by simp),
    alookup_gaugeSet_ne (by simp [active_subs]) _ _]

theorem alookup_publishSub_net_frame {g : Gauges} {st : SubState} {plan : String}
    (h : plan ∉ keysOf st.net_mrrs) :
    alookup (publishSub g st) ("stripe_net_subscription_mrr_by_plan", some plan) =
      alookup g ("stripe_net_subscription_mrr_by_plan", some plan) := by
  unfold publishSub
  rw [alookup_publishByPlan_notMem _ _ h,
    alookup_publishByPlan_fst_ne _ _ (by simp),
    alookup_publishByPlan_fst_ne _ _ (by simp),
    alookup_gaugeSet_ne (by simp [active_subs]) _ _]

theorem alookup_publishSub_fst_ne {metric : String} (g : Gauges) (st : SubState)
    (h1 : metric ≠ "stripe_active_subscriptions_by_plan")
    (h2 : metric ≠ "stripe_subscription_mrr_by_plan")
    (h3 : metric ≠ "stripe_net_subscription_mrr_by_plan") (plan : String) :
    alookup (publishSub g st) (metric, some plan) = alookup g (metric, some plan) := by
  unfold publishSub
  rw [alookup_publishByPlan_fst_ne _ _ (by simpa using h3),
    alookup_publishByPlan_fst_ne _ _ (by simpa using h2),
    alookup_publishByPlan_fst_ne _ _ (by simpa using h1),
    alookup_gaugeSet_ne (by simp [active_subs]) _ _]

theorem alookup_publishChargeStats_labeled (g : Gauges) (cst : ChargeStats)
    (metric plan : String) :
    alookup (publishChargeStats g cst) (metric, some plan) =
      alookup g (metric, some plan) := by
  unfold publishChargeStats
  rw [alookup_gaugeSet_ne (by simp [net_revenue_24h]) _ _,
    alookup_gaugeSet_ne (by simp [fees_24h]) _ _,
    alookup_gaugeSet_ne (by simp [avg_payment_24h]) _ _,
    alookup_gaugeSet_ne (by simp [total_revenue_24h]) _ _,
    alookup_gaugeSet_ne (by simp [payment_count_24h]) _ _]

theorem alookup_publishChargeStats_active (g : Gauges) (cst : ChargeStats) :
    alookup (publishChargeStats g cst) ("stripe_active_subscriptions", none) =
      alookup g ("stripe_active_subscriptions", none) := by
  unfold publishChargeStats
  rw [alookup_gaugeSet_ne (by decide) _ _, alookup_gaugeSet_ne (by decide) _ _,
    alookup_gaugeSet_ne (by decide) _ _, alookup_gaugeSet_ne (by decide) _ _,
    alookup_gaugeSet_ne (by decide) _ _]

theorem alookup_publishChargeStats_count (g : Gauges) (cst : ChargeStats) :
    alookup (publishChargeStats g cst) ("stripe_successful_payments_last_24h", none) =
      some ((cst.count : ℚ)) := by
  unfold publishChargeStats
  rw [alookup_gaugeSet_ne (by decide) _ _, alookup_gaugeSet_ne (by decide) _ _,
    alookup_gaugeSet_ne (by decide) _ _, alookup_gaugeSet_ne (by decide) _ _]
  exact alookup_gaugeSet_self _ _ _

theorem alookup_publishChargeStats_gross (g : Gauges) (cst : ChargeStats) :
    alookup (publishChargeStats g cst) ("stripe_total_revenue_last_24h", none) =
      some cst.gross := by
  unfold publishChargeStats
  rw [alookup_gaugeSet_ne (by decide) _ _, alookup_gaugeSet_ne (by decide) _ _,
    alookup_gaugeSet_ne (by decide) _ _]
  exact alookup_gaugeSet_self _ _ _

theorem alookup_publishChargeStats_avg (g : Gauges) (cst : ChargeStats) :
    alookup (publishChargeStats g cst) ("stripe_avg_payment_amount_last_24h", none) =
      some cst.avg := by
  unfold publishChargeStats
  rw [alookup_gaugeSet_ne (by decide) _ _, alookup_gaugeSet_ne (by decide) _ _]
  exact alookup_gaugeSet_self _ _ _

theorem alookup_publishChargeStats_fees (g : Gauges) (cst : ChargeStats) :
    alookup (publishChargeStats g cst) ("stripe_fees_last_24h", none) =
      some cst.fees := by
  unfold publishChargeStats
  rw [alookup_gaugeSet_ne (by decide) _ _]
  exact alookup_gaugeSet_self _ _ _

theorem alookup_publishChargeStats_net (g : Gauges) (cst : ChargeStats) :
    alookup (publishChargeStats g cst) ("stripe_net_revenue_last_24h", none) =
      some cst.net := by
  unfold publishChargeStats
  exact alookup_gaugeSet_self _ _ _

theorem alookup_publishInv_global (g : Gauges) (ist : InvState) (name : String) :
    alookup (publishInv g ist) (name, none) = alookup g (name, none) := by
  unfold publishInv
  rw [alookup_publishByPlan_none, alookup_publishByPlan_none, alookup_publishByPlan_none]

theorem alookup_publishInv_fst_ne {metric : String} (g : Gauges) (ist : InvState)
    (h1 : metric ≠ "stripe_successful_payments_last_24h_by_plan")
    (h2 : metric ≠ "stripe_total_revenue_last_24h_by_plan")
    (h3 : metric ≠ "stripe_net_revenue_last_24h_by_plan") (plan : String) :
    alookup (publishInv g ist) (metric, some plan) = alookup g (metric, some plan) := by
  unfold publishInv
  rw [alookup_publishByPlan_fst_ne _ _ h3, alookup_publishByPlan_fst_ne _ _ h2,
    alookup_publishByPlan_fst_ne _ _ h1]

theorem alookup_publishInv_counts_frame {g : Gauges} {ist : InvState} {plan : String}
    (h : plan ∉ keysOf ist.pay_counts) :
    alookup (publishInv g ist) ("stripe_successful_payments_last_24h_by_plan", some plan) =
      alookup g ("stripe_successful_payments_last_24h_by_plan", some plan) := by
  unfold publishInv
  rw [alookup_publishByPlan_fst_ne _ _ (by simp),
    alookup_publishByPlan_fst_ne _ _ (by simp),
    alookup_publishByPlan_notMem _ _ h]

theorem alookup_publishInv_revenues_frame {g : Gauges} {ist : InvState} {plan : String}
    (h : plan ∉ keysOf ist.pay_revenues) :
    alookup (publishInv g ist) ("stripe_total_revenue_last_24h_by_plan", some plan) =
      alookup g ("stripe_total_revenue_last_24h_by_plan", some plan) := by
  unfold publishInv
  rw [alookup_publishByPlan_fst_ne _ _ (by simp),
    alookup_publishByPlan_notMem _ _ h,
    alookup_publishByPlan_fst_ne _ _ (by simp)]

theorem alookup_publishInv_net_frame {g : Gauges} {ist : InvState} {plan : String}
    (h : plan ∉ keysOf ist.pay_net) :
    alookup (publishInv g ist) ("stripe_net_revenue_last_24h_by_plan", some plan) =
      alookup g ("stripe_net_revenue_last_24h_by_plan", some plan) := by
  unfold publishInv
  rw [alookup_publishByPlan_notMem _ _ h,
    alookup_publishByPlan_fst_ne _ _ (by simp),
    alookup_publishByPlan_fst_ne _ _ (by simp)]

/-- A successful cycle decomposes into its three successful passes and
their sequential publications. -/
theorem cycleBody_ok_cases {fp ff : ℚ} {env : Env} {g g' : Gauges}
    (h : cycleBody fp ff env g = .ok g') :
    ∃ sst cst successes ist,
      subscriptionPass fp ff env = .ok sst ∧
      fetch_charge_metrics env = .ok (cst, successes) ∧
      invoicePass fp ff env successes = .ok ist ∧
      g' = publishInv (publishChargeStats (publishSub g sst) cst) ist := by
  unfold cycleBody at h
  cases hs : subscriptionPass fp ff env with
  | error e =>
    simp only [hs] at h
    exact Except.noConfusion h
  | ok sst =>
    simp only [hs] at h
    cases hc : fetch_charge_metrics env with
    | error e =>
      simp only [hc] at h
      exact Except.noConfusion h
    | ok pr =>
      obtain ⟨cst, successes⟩ := pr
      simp only [hc] at h
      cases hi : invoicePass fp ff env successes with
      | error e =>
        simp only [hi] at h
        exact Except.noConfusion h
      | ok ist =>
        simp only [hi, Except.ok.injEq] at h
        exact ⟨sst, cst, successes, ist, rfl, rfl, hi, h.symm⟩

/-- A failed cycle fails at one of the three fallible stages, and the
partial gauges are exactly the publications made before it. -/
theorem cycleBody_error_cases {fp ff : ℚ} {env : Env} {g gerr : Gauges}
    (h : cycleBody fp ff env g = .error gerr) :
    gerr = g ∨
    (∃ sst, subscriptionPass fp ff env = .ok sst ∧
      fetch_charge_metrics env = .error () ∧ gerr = publishSub g sst) ∨
    (∃ sst cst successes, subscriptionPass fp ff env = .ok sst ∧
      fetch_charge_metrics env = .ok (cst, successes) ∧
      invoicePass fp ff env successes = .error () ∧
      gerr = publishChargeStats (publishSub g sst) cst) := by
  unfold cycleBody at h
  cases hs : subscriptionPass fp ff env with
  | error e =>
    simp only [hs, Except.error.injEq] at h
    exact Or.inl h.symm
  | ok sst =>
    simp only [hs] at h
    cases hc : fetch_charge_metrics env with
    | error e =>
      cases e
      simp only [hc, Except.error.injEq] at h
      exact Or.inr (Or.inl ⟨sst, rfl, rfl, h.symm⟩)
    | ok pr =>
      obtain ⟨cst, successes⟩ := pr
      simp only [hc] at h
      cases hi : invoicePass fp ff env successes with
      | error e =>
        cases e
        simp only [hi, Except.error.injEq] at h
        exact Or.inr (Or.inr ⟨sst, cst, successes, rfl, rfl, hi, h.symm⟩)
      | ok ist =>
        simp only [hi] at h
        exact Except.noConfusion h

/-- A fee sum succeeds exactly on charges with expanded balance
transactions, and then equals the sum of their fees. -/
theorem sumFees_ok {l : List Charge} {F : Int} (h : sumFees l = .ok F) :
    F = (l.map btFee).sum ∧ ∀ c ∈ l, c.balance_transaction ≠ none := by
  induction l generalizing F with
  | nil =>
    unfold sumFees at h
    injection h with h
    exact ⟨by simp [h.symm], by simp⟩
  | cons c cs ih =>
    unfold sumFees at h
    cases hbt : c.balance_transaction with
    | none =>
      simp only [hbt] at h
      exact Except.noConfusion h
    | some bt =>
      simp only [hbt] at h
      cases hrest : sumFees cs with
      | error e =>
        simp only [hrest, except_bind_err] at h
        exact Except.noConfusion h
      | ok R =>
        simp only [hrest, except_bind_ok, except_pure, Except.ok.injEq] at h
        obtain ⟨hv, hall⟩ := ih hrest
        constructor
        · rw [← h, hv]
          simp [btFee, hbt]
        · intro c2 hc2
          rcases List.mem_cons.mp hc2 with hc2 | hc2
          · rw [hc2, hbt]
            simp
          · exact hall c2 hc2

theorem sumNets_ok {l : List Charge} {N : Int} (h : sumNets l = .ok N) :
    N = (l.map btNet).sum := by
  induction l generalizing N with
  | nil =>
    unfold sumNets at h
    injection h with h
    simp [h.symm]
  | cons c cs ih =>
    unfold sumNets at h
    cases hbt : c.balance_transaction with
    | none =>
      simp only [hbt] at h
      exact Except.noConfusion h
    | some bt =>
      simp only [hbt] at h
      cases hrest : sumNets cs with
      | error e =>
        simp only [hrest, except_bind_err] at h
        exact Except.noConfusion h
      | ok R =>
        simp only [hrest, except_bind_ok, except_pure, Except.ok.injEq] at h
        rw [← h, ih hrest]
        simp [btNet, hbt]

theorem sumFees_error_of_missing {l : List Charge}
    (h : ∃ c ∈ l, c.balance_transaction = none) : sumFees l = .error () := by
  induction l with
  | nil => simp at h
  | cons c cs ih =>
    obtain ⟨c2, hc2, hbt⟩ := h
    rcases List.mem_cons.mp hc2 with hc2 | hc2
    · unfold sumFees
      rw [hc2] at hbt
      simp only [hbt]
    · unfold sumFees
      cases hbt2 : c.balance_transaction with
      | none => rfl
      | some bt => simp only [hbt2, ih ⟨c2, hc2, hbt⟩, except_bind_err]

/-- What a successful `fetch_charge_metrics` computes. -/
theorem fetch_charge_metrics_ok {env : Env} {cs : List Charge}
    {cst : ChargeStats} {successes : List Charge}
    (hcl : env.chargeList = .ok cs)
    (h : fetch_charge_metrics env = .ok (cst, successes)) :
    successes = cs.filter isSuccess ∧
    cst.count = successes.length ∧
    cst.gross = (((successes.map Charge.amount).sum : Int) : ℚ) / 100 ∧
    (successes.isEmpty = true → cst.avg = 0) ∧
    (successes.isEmpty = false →
      cst.avg = ((((successes.map Charge.amount).sum : Int) : ℚ) / (successes.length : ℚ)) / 100) ∧
    cst.fees = (((successes.map btFee).sum : Int) : ℚ) / 100 ∧
    cst.net = (((successes.map btNet).sum : Int) : ℚ) / 100 ∧
    (∀ c ∈ successes, c.balance_transaction ≠ none) := by
  simp only [fetch_charge_metrics, hcl, except_bind_ok] at h
  cases hsf : sumFees (List.filter isSuccess cs) with
  | error e =>
    simp only [hsf, except_bind_err] at h
    exact Except.noConfusion h
  | ok F =>
    simp only [hsf, except_bind_ok] at h
    cases hsn : sumNets (List.filter isSuccess cs) with
    | error e =>
      simp only [hsn, except_bind_err] at h
      exact Except.noConfusion h
    | ok N =>
      simp only [hsn, except_bind_ok, except_pure, Except.ok.injEq, Prod.mk.injEq] at h
      obtain ⟨hcst, hsucc⟩ := h
      obtain ⟨hF, hall⟩ := sumFees_ok hsf
      have hN := sumNets_ok hsn
      subst hsucc
      subst hcst
      refine ⟨rfl, rfl, rfl, ?_, ?_, ?_, ?_, hall⟩
      · intro he
        simp [he]
      · intro he
        simp [he]
      · show ((F : Int) : ℚ) / 100 = _
        rw [hF]
      · show ((N : Int) : ℚ) / 100 = _
        rw [hN]

/-- A missing balance transaction on any counted charge makes the
whole charge pass raise. -/
theorem fetch_charge_metrics_error_of_missing {env : Env} {cs : List Charge}
    (hcl : env.chargeList = .ok cs)
    (hmiss : ∃ c ∈ cs.filter isSuccess, c.balance_transaction = none) :
    fetch_charge_metrics env = .error () := by
  simp only [fetch_charge_metrics, hcl, except_bind_ok,
    sumFees_error_of_missing hmiss, except_bind_err]

-- ─── Claim theorems ───

set_option maxRecDepth 1800 in
/-- C1: the claim says at most one product-lookup call per product
reference within one process lifetime.  The code evaluates
`setdefault`'s default argument eagerly, so it issues one
`Product.retrieve` call on every resolution with a falsy nickname —
cache hit or not — and it also re-creates the cache at the top of every
cycle.  One cycle with two line items on the same product, both without
a nickname, already issues two lookup calls. -/
theorem C1_two_lookup_calls :
    (subscriptionPass FEE_PERCENT FEE_FLAT envSharedProduct).map SubState.calls =
      .ok 2 := by
  with_unfolding_all decide

/-- C2: an exception inside a refresh cycle is caught (the cycle's
result is the gauges as of the failure point), the loop proceeds with
the next scheduled cycle from that state, and every gauge instance
published before the failure point remains published. -/
theorem C2_cycle_error_isolation (fp ff : ℚ) (env : Env) (g gerr : Gauges)
    (rest : List Env)
    (h : cycleBody fp ff env g = .error gerr) :
    runCycle fp ff env g = gerr ∧
    runLoop fp ff (env :: rest) g = runLoop fp ff rest gerr ∧
    (∀ key v, alookup g key = some v → (alookup gerr key).isSome) := by
  have hrc : runCycle fp ff env g = gerr := by
    unfold runCycle
    simp only [h]
  refine ⟨hrc, ?_, ?_⟩
  · rw [runLoop_cons, hrc]
  · intro key v hv
    have hsome : (alookup g key).isSome := by rw [hv]; rfl
    rcases cycleBody_error_cases h with hcase | ⟨sst, _, _, hcase⟩ |
      ⟨sst, cst, succ, _, _, _, hcase⟩
    · rw [hcase]
      exact hsome
    · rw [hcase]
      exact publishSub_isSome hsome
    · rw [hcase]
      exact publishChargeStats_isSome (publishSub_isSome hsome)

set_option maxRecDepth 1800 in
/-- Witness for C2: a cycle whose charge listing raises keeps the
already-published subscription gauges and the loop goes on. -/
theorem C2_witness :
    runCycle FEE_PERCENT FEE_FLAT envChargeRaises [] =
      [((("stripe_active_subscriptions" : String), (none : Option String)), (0 : ℚ))] ∧
    runLoop FEE_PERCENT FEE_FLAT (envChargeRaises :: []) [] =
      runLoop FEE_PERCENT FEE_FLAT []
        [((("stripe_active_subscriptions" : String), (none : Option String)), (0 : ℚ))] := by
  have h := C2_cycle_error_isolation FEE_PERCENT FEE_FLAT envChargeRaises []
    [((("stripe_active_subscriptions" : String), (none : Option String)), (0 : ℚ))] []
    (by with_unfolding_all decide)
  exact ⟨h.1, h.2.1⟩

/-- C9: the published total active count equals the number of streamed
subscription records, independent of line items and quantities (a
subscription with zero line items still adds 1). -/
theorem C9_total_active_count (fp ff : ℚ) (env : Env) (subs : List Subscription)
    (sst : SubState) (g g' : Gauges)
    (hsubs : env.subsList = .ok subs)
    (hs : subscriptionPass fp ff env = .ok sst)
    (hcy : cycleBody fp ff env g = .ok g') :
    sst.total = subs.length ∧
    alookup g' active_subs = some ((subs.length : ℚ)) := by
  obtain ⟨htot, _, _, _⟩ := subscriptionPass_ok hsubs hs
  obtain ⟨sst2, cst, successes, ist, hs2, hc2, hi2, hg⟩ := cycleBody_ok_cases hcy
  rw [hs] at hs2
  injection hs2 with hs2
  subst hs2
  refine ⟨htot, ?_⟩
  simp only [active_subs]
  rw [hg, alookup_publishInv_global, alookup_publishChargeStats_active,
    alookup_publishSub_active, htot]

set_option maxRecDepth 1800 in
/-- Witness for C9: an empty subscription plus a two-item subscription
count as 2. -/
theorem C9_witness :
    (subStateOf envZeroItemSub).total = 2 ∧
    alookup (cycleOkGauges envZeroItemSub) active_subs = some ((2 : ℚ)) := by
  have h := C9_total_active_count FEE_PERCENT FEE_FLAT envZeroItemSub
    [⟨[]⟩, ⟨[⟨⟨"price_1", some 100, some "Test Plan", "prod_1"⟩, some 1⟩,
            ⟨⟨"price_2", some 50, some "Other", "prod_2"⟩, some 4⟩]⟩]
    (subStateOf envZeroItemSub) [] (cycleOkGauges envZeroItemSub)
    (by with_unfolding_all decide) (by with_unfolding_all decide)
    (by with_unfolding_all decide)
  exact ⟨by simpa using h.1, by simpa using h.2⟩

/-- C3: for every plan of a subscription pass, the published net MRR
equals gross_mrr[plan] · (1 − fee_percent) − fee_flat · total_quantity[plan]
exactly, with gross MRR and summed quantity from the same pass. -/
theorem C3_net_mrr_relation (fp ff : ℚ) (env : Env) (sst : SubState)
    (g g' : Gauges) (plan : String)
    (hs : subscriptionPass fp ff env = .ok sst)
    (hcy : cycleBody fp ff env g = .ok g')
    (hmem : plan ∈ keysOf sst.counts) :
    alookup g' (subs_net_mrr_by_plan plan) =
      some ((alookup sst.mrrs plan).getD 0 * (1 - fp) -
        ff * (alookup sst.counts plan).getD 0) := by
  cases hsubs : env.subsList with
  | error e =>
    simp only [subscriptionPass, hsubs, except_bind_err] at hs
    exact Except.noConfusion hs
  | ok subs =>
    obtain ⟨_, _, hal, hnet⟩ := subscriptionPass_ok hsubs hs
    obtain ⟨ha1, ha2, ha3⟩ := hal
    have hmemN : plan ∈ keysOf sst.net_mrrs := ha2 ▸ hmem
    have hndN : (keysOf sst.net_mrrs).Nodup := ha2 ▸ ha3
    have hsomeN : (alookup sst.net_mrrs plan).isSome :=
      (alookup_isSome_iff_mem _ _).mpr hmemN
    have hvN : alookup sst.net_mrrs plan =
        some ((alookup sst.net_mrrs plan).getD 0) := getD_of_isSome 0 hsomeN
    obtain ⟨sst2, cst, succ, ist, hs2, hc2, hi2, hg⟩ := cycleBody_ok_cases hcy
    rw [hs] at hs2
    injection hs2 with hs2
    subst hs2
    simp only [subs_net_mrr_by_plan]
    rw [hg, alookup_publishInv_fst_ne _ _ (by decide) (by decide) (by decide) plan,
      alookup_publishChargeStats_labeled, alookup_publishSub_net hndN hvN,
      hnet plan]

set_option maxRecDepth 1800 in
/-- Witness for C3: three seats of "Test Plan" at 100¢ with fee
constants ¼ and ½: published net MRR is 3·(1−¼) − ½·3 = ¾. -/
theorem C3_witness :
    alookup gaugesThreeSeats (subs_net_mrr_by_plan "Test Plan") =
      some ((alookup sstThreeSeats.mrrs "Test Plan").getD 0 * (1 - 1/4) -
        (1/2) * (alookup sstThreeSeats.counts "Test Plan").getD 0) :=
  C3_net_mrr_relation (1/4) (1/2) envThreeSeats sstThreeSeats
    [] gaugesThreeSeats "Test Plan"
    (by with_unfolding_all decide) (by with_unfolding_all decide)
    (by with_unfolding_all decide)

/-- C7 (amended): the published per-plan count equals the sum over the
line items resolving to that plan of their effective quantity, where a
missing or zero quantity counts as 1 (not the raw quantity field). -/
theorem C7_counts_by_plan (fp ff : ℚ) (env : Env) (subs : List Subscription)
    (sst : SubState) (g g' : Gauges) (plan : String)
    (hsubs : env.subsList = .ok subs)
    (hs : subscriptionPass fp ff env = .ok sst)
    (hcy : cycleBody fp ff env g = .ok g')
    (hmem : plan ∈ keysOf sst.counts) :
    alookup g' (subs_count_by_plan plan) = some (planQtySubs env plan subs) := by
  obtain ⟨_, hq, hal, _⟩ := subscriptionPass_ok hsubs hs
  obtain ⟨ha1, ha2, ha3⟩ := hal
  have hsome : (alookup sst.counts plan).isSome :=
    (alookup_isSome_iff_mem _ _).mpr hmem
  have hv : alookup sst.counts plan =
      some ((alookup sst.counts plan).getD 0) := getD_of_isSome 0 hsome
  obtain ⟨sst2, cst, succ, ist, hs2, hc2, hi2, hg⟩ := cycleBody_ok_cases hcy
  rw [hs] at hs2
  injection hs2 with hs2
  subst hs2
  simp only [subs_count_by_plan]
  rw [hg, alookup_publishInv_fst_ne _ _ (by decide) (by decide) (by decide) plan,
    alookup_publishChargeStats_labeled, alookup_publishSub_counts ha3 hv,
    hq plan]

set_option maxRecDepth 1800 in
/-- Counterexample for C7 as stated: a single "Test Plan" line item whose
quantity field is 0 is published with count 1, although the sum of the
quantity field over those items is 0. -/
theorem C7_counterexample :
    alookup (cycleOkGauges envQtyZero) (subs_count_by_plan "Test Plan") =
      some 1 ∧
    (([⟨⟨"price_1", some 100, some "Test Plan", "prod_1"⟩, some 0⟩] :
        List SubItem).map (fun i => ((i.quantity.getD 0 : ℚ)))).sum = 0 ∧
    (1 : ℚ) ≠ 0 :=
  ⟨by with_unfolding_all decide, by with_unfolding_all decide, by norm_num⟩

set_option maxRecDepth 1800 in
/-- Witness for C7: the zero-quantity line item counts with effective
quantity 1. -/
theorem C7_witness :
    alookup (cycleOkGauges envQtyZero) (subs_count_by_plan "Test Plan") =
      some (planQtySubs envQtyZero "Test Plan"
        [⟨[⟨⟨"price_1", some 100, some "Test Plan", "prod_1"⟩, some 0⟩]⟩]) :=
  C7_counts_by_plan FEE_PERCENT FEE_FLAT envQtyZero
    [⟨[⟨⟨"price_1", some 100, some "Test Plan", "prod_1"⟩, some 0⟩]⟩]
    (subStateOf envQtyZero) [] (cycleOkGauges envQtyZero) "Test Plan"
    (by with_unfolding_all decide) (by with_unfolding_all decide)
    (by with_unfolding_all decide) (by with_unfolding_all decide)

/-- C4: a fetched charge is counted iff it is paid with status
"succeeded"; the pass publishes count, gross = Σamount/100, and
avg = gross/count when count > 0 and 0 otherwise. -/
theorem C4_charge_filter_and_rollup (fp ff : ℚ) (env : Env) (cs : List Charge)
    (cst : ChargeStats) (successes : List Charge) (g g' : Gauges)
    (hcl : env.chargeList = .ok cs)
    (hfc : fetch_charge_metrics env = .ok (cst, successes))
    (hcy : cycleBody fp ff env g = .ok g') :
    (∀ c, c ∈ successes ↔ c ∈ cs ∧ (c.paid = true ∧ c.status = "succeeded")) ∧
    alookup g' payment_count_24h = some ((successes.length : ℚ)) ∧
    alookup g' total_revenue_24h =
      some ((((successes.map Charge.amount).sum : Int) : ℚ) / 100) ∧
    (0 < successes.length →
      alookup g' avg_payment_24h =
        some (((((successes.map Charge.amount).sum : Int) : ℚ) / 100) /
          ((successes.length : ℚ)))) ∧
    (successes.length = 0 → alookup g' avg_payment_24h = some 0) := by
  obtain ⟨hfilt, hcount, hgross, havg0, havg1, _, _, _⟩ :=
    fetch_charge_metrics_ok hcl hfc
  obtain ⟨sst, cst2, succ2, ist, hs2, hc2, hi2, hg⟩ := cycleBody_ok_cases hcy
  rw [hfc] at hc2
  injection hc2 with hc2
  injection hc2 with hc2a hc2b
  subst hc2a
  subst hc2b
  simp only [payment_count_24h, total_revenue_24h, avg_payment_24h]
  refine ⟨?_, ?_, ?_, ?_, ?_⟩
  · intro c
    rw [hfilt]
    simp [List.mem_filter, isSuccess, ChargeStatusSucceeded]
  · rw [hg, alookup_publishInv_global, alookup_publishChargeStats_count, hcount]
  · rw [hg, alookup_publishInv_global, alookup_publishChargeStats_gross, hgross]
  · intro hlen
    have hne : successes.isEmpty = false := by
      cases successes with
      | nil => simp at hlen
      | cons a l => rfl
    rw [hg, alookup_publishInv_global, alookup_publishChargeStats_avg, havg1 hne,
      div_right_comm]
  · intro hlen
    have he : successes.isEmpty = true := by
      cases successes with
      | nil => rfl
      | cons a l => simp at hlen
    rw [hg, alookup_publishInv_global, alookup_publishChargeStats_avg, havg0 he]

set_option maxRecDepth 1800 in
/-- Witness for C4, Scenario B: charges of 100¢ and 200¢ give count 2,
gross 3.0 and average 1.5. -/
theorem C4_witness :
    alookup (cycleOkGauges envScenarioB) payment_count_24h = some 2 ∧
    alookup (cycleOkGauges envScenarioB) total_revenue_24h = some 3 ∧
    alookup (cycleOkGauges envScenarioB) avg_payment_24h = some (3 / 2) := by
  have h := C4_charge_filter_and_rollup FEE_PERCENT FEE_FLAT envScenarioB
    [⟨100, true, "succeeded", none, some ⟨5, 95⟩⟩,
     ⟨200, true, "succeeded", none, some ⟨10, 190⟩⟩]
    (chargeStatsOf envScenarioB)
    [⟨100, true, "succeeded", none, some ⟨5, 95⟩⟩,
     ⟨200, true, "succeeded", none, some ⟨10, 190⟩⟩]
    [] (cycleOkGauges envScenarioB)
    (by with_unfolding_all decide) (by with_unfolding_all decide)
    (by with_unfolding_all decide)
  refine ⟨?_, ?_, ?_⟩
  · rw [h.2.1]
    with_unfolding_all decide
  · rw [h.2.2.1]
    with_unfolding_all decide
  · rw [h.2.2.2.1 (by decide)]
    with_unfolding_all decide

set_option maxRecDepth 1800 in
/-- Counterexample for C5 as stated: when a counted charge carries no
balance-transaction data the charge pass raises before any write, so the
count/gross/average gauges are not published either — the cycle keeps
only the subscription-stage gauges. -/
theorem C5_counterexample :
    fetch_charge_metrics envMissingBt = .error () ∧
    cycleBody FEE_PERCENT FEE_FLAT envMissingBt [] =
      .error [((("stripe_active_subscriptions" : String), (none : Option String)), (0 : ℚ))] ∧
    alookup [((("stripe_active_subscriptions" : String), (none : Option String)), (0 : ℚ))]
      payment_count_24h = none ∧
    alookup [((("stripe_active_subscriptions" : String), (none : Option String)), (0 : ℚ))]
      total_revenue_24h = none ∧
    alookup [((("stripe_active_subscriptions" : String), (none : Option String)), (0 : ℚ))]
      avg_payment_24h = none :=
  ⟨by with_unfolding_all decide, by with_unfolding_all decide,
   by with_unfolding_all decide, by with_unfolding_all decide,
   by with_unfolding_all decide⟩

/-- C5 (amended): when every counted charge carries balance-transaction
data the pass publishes fees = Σfee/100 and net = Σnet/100; when any
counted charge lacks it, the pass raises, the cycle is abandoned after
the subscription stage, and none of the five 24h gauges (count, gross,
average, fees, net) is written in that cycle. -/
theorem C5_fee_data (fp ff : ℚ) (env : Env) (cs : List Charge)
    (hcl : env.chargeList = .ok cs) :
    (∀ cst successes g g', fetch_charge_metrics env = .ok (cst, successes) →
      cycleBody fp ff env g = .ok g' →
      alookup g' fees_24h = some ((((successes.map btFee).sum : Int) : ℚ) / 100) ∧
      alookup g' net_revenue_24h =
        some ((((successes.map btNet).sum : Int) : ℚ) / 100)) ∧
    ((∃ c ∈ cs.filter isSuccess, c.balance_transaction = none) →
      fetch_charge_metrics env = .error () ∧
      ∀ g sst, subscriptionPass fp ff env = .ok sst →
        cycleBody fp ff env g = .error (publishSub g sst) ∧
        alookup (publishSub g sst) payment_count_24h = alookup g payment_count_24h ∧
        alookup (publishSub g sst) total_revenue_24h = alookup g total_revenue_24h ∧
        alookup (publishSub g sst) avg_payment_24h = alookup g avg_payment_24h ∧
        alookup (publishSub g sst) fees_24h = alookup g fees_24h ∧
        alookup (publishSub g sst) net_revenue_24h = alookup g net_revenue_24h) := by
  have frame : ∀ (g : Gauges) (sst : SubState) (name : String),
      name ≠ "stripe_active_subscriptions" →
      alookup (publishSub g sst) (name, none) = alookup g (name, none) := by
    intro g sst name hname
    unfold publishSub
    rw [alookup_publishByPlan_none, alookup_publishByPlan_none,
      alookup_publishByPlan_none, alookup_gaugeSet_ne (by simp [active_subs, hname]) _ _]
  constructor
  · intro cst successes g g' hfc hcy
    obtain ⟨_, _, _, _, _, hfees, hnet, _⟩ := fetch_charge_metrics_ok hcl hfc
    obtain ⟨sst, cst2, succ2, ist, hs2, hc2, hi2, hg⟩ := cycleBody_ok_cases hcy
    rw [hfc] at hc2
    injection hc2 with hc2
    injection hc2 with hc2a hc2b
    subst hc2a
    subst hc2b
    simp only [fees_24h, net_revenue_24h]
    constructor
    · rw [hg, alookup_publishInv_global, alookup_publishChargeStats_fees, hfees]
    · rw [hg, alookup_publishInv_global, alookup_publishChargeStats_net, hnet]
  · intro hmiss
    have herr := fetch_charge_metrics_error_of_missing hcl hmiss
    refine ⟨herr, ?_⟩
    intro g sst hsp
    have hbody : cycleBody fp ff env g = .error (publishSub g sst) := by
      unfold cycleBody
      simp only [hsp, herr]
    simp only [payment_count_24h, total_revenue_24h, avg_payment_24h, fees_24h,
      net_revenue_24h]
    exact ⟨hbody, frame g sst _ (by decide), frame g sst _ (by decide),
      frame g sst _ (by decide), frame g sst _ (by decide), frame g sst _ (by decide)⟩

set_option maxRecDepth 1800 in
/-- Witness for C5, Scenario D: one 100¢ charge with fee 5¢ and net 95¢
publishes fees 0.05 and net 0.95. -/
theorem C5_witness :
    alookup (cycleOkGauges envScenarioD) fees_24h = some (1 / 20) ∧
    alookup (cycleOkGauges envScenarioD) net_revenue_24h = some (19 / 20) := by
  have h := (C5_fee_data FEE_PERCENT FEE_FLAT envScenarioD
      [⟨100, true, "succeeded", none, some ⟨5, 95⟩⟩]
      (by with_unfolding_all decide)).1
    (chargeStatsOf envScenarioD)
    [⟨100, true, "succeeded", none, some ⟨5, 95⟩⟩]
    [] (cycleOkGauges envScenarioD)
    (by with_unfolding_all decide) (by with_unfolding_all decide)
  refine ⟨?_, ?_⟩
  · rw [h.1]
    with_unfolding_all decide
  · rw [h.2]
    with_unfolding_all decide

/-- C6: in a successful cycle each plan-labeled gauge is overwritten only
for plans present in that cycle's corresponding result dict; plan
instances absent from the cycle keep their prior value; and in a cycle
with zero subscriptions and zero charges, the six global gauges are set
to 0 while every plan-labeled gauge keeps its prior value. -/
theorem C6_frame_and_empty_cycle (fp ff : ℚ) (env : Env) (sst : SubState)
    (cst : ChargeStats) (successes : List Charge) (ist : InvState) (g g' : Gauges)
    (hs : subscriptionPass fp ff env = .ok sst)
    (hfc : fetch_charge_metrics env = .ok (cst, successes))
    (hi : invoicePass fp ff env successes = .ok ist)
    (hcy : cycleBody fp ff env g = .ok g') :
    (∀ plan, plan ∉ keysOf sst.counts →
      alookup g' (subs_count_by_plan plan) = alookup g (subs_count_by_plan plan)) ∧
    (∀ plan, plan ∉ keysOf sst.mrrs →
      alookup g' (subs_mrr_by_plan plan) = alookup g (subs_mrr_by_plan plan)) ∧
    (∀ plan, plan ∉ keysOf sst.net_mrrs →
      alookup g' (subs_net_mrr_by_plan plan) = alookup g (subs_net_mrr_by_plan plan)) ∧
    (∀ plan, plan ∉ keysOf ist.pay_counts →
      alookup g' (payment_count_24h_by_plan plan) =
        alookup g (payment_count_24h_by_plan plan)) ∧
    (∀ plan, plan ∉ keysOf ist.pay_revenues →
      alookup g' (revenue_24h_by_plan plan) = alookup g (revenue_24h_by_plan plan)) ∧
    (∀ plan, plan ∉ keysOf ist.pay_net →
      alookup g' (revenue_net_24h_by_plan plan) =
        alookup g (revenue_net_24h_by_plan plan)) ∧
    (env.subsList = .ok [] → env.chargeList = .ok [] →
      (alookup g' active_subs = some 0 ∧
       alookup g' payment_count_24h = some 0 ∧
       alookup g' total_revenue_24h = some 0 ∧
       alookup g' avg_payment_24h = some 0 ∧
       alookup g' fees_24h = some 0 ∧
       alookup g' net_revenue_24h = some 0) ∧
      (∀ metric plan, alookup g' (metric, some plan) =
        alookup g (metric, some plan))) := by
  obtain ⟨sst2, cst2, succ2, ist2, hs2, hc2, hi2, hg⟩ := cycleBody_ok_cases hcy
  rw [hs] at hs2
  injection hs2 with hs2
  subst hs2
  rw [hfc] at hc2
  injection hc2 with hc2
  injection hc2 with hc2a hc2b
  subst hc2a
  subst hc2b
  rw [hi] at hi2
  injection hi2 with hi2
  subst hi2
  refine ⟨?_, ?_, ?_, ?_, ?_, ?_, ?_⟩
  · intro plan hp
    simp only [subs_count_by_plan]
    rw [hg, alookup_publishInv_fst_ne _ _ (by decide) (by decide) (by decide) plan,
      alookup_publishChargeStats_labeled, alookup_publishSub_counts_frame hp]
  · intro plan hp
    simp only [subs_mrr_by_plan]
    rw [hg, alookup_publishInv_fst_ne _ _ (by decide) (by decide) (by decide) plan,
      alookup_publishChargeStats_labeled, alookup_publishSub_mrr_frame hp]
  · intro plan hp
    simp only [subs_net_mrr_by_plan]
    rw [hg, alookup_publishInv_fst_ne _ _ (by decide) (by decide) (by decide) plan,
      alookup_publishChargeStats_labeled, alookup_publishSub_net_frame hp]
  · intro plan hp
    simp only [payment_count_24h_by_plan]
    rw [hg, alookup_publishInv_counts_frame hp, alookup_publishChargeStats_labeled,
      alookup_publishSub_fst_ne _ _ (by decide) (by decide) (by decide) plan]
  · intro plan hp
    simp only [revenue_24h_by_plan]
    rw [hg, alookup_publishInv_revenues_frame hp, alookup_publishChargeStats_labeled,
      alookup_publishSub_fst_ne _ _ (by decide) (by decide) (by decide) plan]
  · intro plan hp
    simp only [revenue_net_24h_by_plan]
    rw [hg, alookup_publishInv_net_frame hp, alookup_publishChargeStats_labeled,
      alookup_publishSub_fst_ne _ _ (by decide) (by decide) (by decide) plan]
  · intro hse hce
    have hsst : sst = ⟨0, [], [], [], [], 0⟩ := by
      simp only [subscriptionPass, hse, except_bind_ok, List.foldlM_nil, except_pure,
        Except.ok.injEq] at hs
      exact hs.symm
    have hzero : fetch_charge_metrics env = .ok (⟨0, 0, 0, 0, 0⟩, []) := by
      simp [fetch_charge_metrics, hce, except_bind_ok, sumFees, sumNets,
        ChargeStats.mk.injEq]
    have hpair := hzero.symm.trans hfc
    injection hpair with hpair
    injection hpair with hpa hpb
    have hsucc : successes = [] := hpb.symm
    have hcst : cst = ⟨0, 0, 0, 0, 0⟩ := hpa.symm
    subst hsucc
    subst hcst
    have hist : ist = ⟨[], [], [], []⟩ := by
      simp only [invoicePass, List.foldlM_nil, except_pure, Except.ok.injEq] at hi
      exact hi.symm
    subst hist
    subst hsst
    constructor
    · refine ⟨?_, ?_, ?_, ?_, ?_, ?_⟩
      · simp only [active_subs]
        rw [hg, alookup_publishInv_global, alookup_publishChargeStats_active,
          alookup_publishSub_active]
        simp
      · simp only [payment_count_24h]
        rw [hg, alookup_publishInv_global, alookup_publishChargeStats_count]
        simp
      · simp only [total_revenue_24h]
        rw [hg, alookup_publishInv_global, alookup_publishChargeStats_gross]
      · simp only [avg_payment_24h]
        rw [hg, alookup_publishInv_global, alookup_publishChargeStats_avg]
      · simp only [fees_24h]
        rw [hg, alookup_publishInv_global, alookup_publishChargeStats_fees]
      · simp only [net_revenue_24h]
        rw [hg, alookup_publishInv_global, alookup_publishChargeStats_net]
    · intro metric plan
      rw [hg]
      simp only [publishInv, publishByPlan, List.foldl_nil]
      rw [alookup_publishChargeStats_labeled]
      simp only [publishSub, publishByPlan, List.foldl_nil]
      rw [alookup_gaugeSet_ne (by simp [active_subs]) _ _]

set_option maxRecDepth 1800 in
/-- Witness for C6, Scenario C: a cycle with zero subscriptions and zero
charges sets the six global gauges to 0. -/
theorem C6_witness :
    alookup (cycleOkGauges envEmptyCycle) active_subs = some 0 ∧
    alookup (cycleOkGauges envEmptyCycle) payment_count_24h = some 0 ∧
    alookup (cycleOkGauges envEmptyCycle) total_revenue_24h = some 0 ∧
    alookup (cycleOkGauges envEmptyCycle) avg_payment_24h = some 0 ∧
    alookup (cycleOkGauges envEmptyCycle) fees_24h = some 0 ∧
    alookup (cycleOkGauges envEmptyCycle) net_revenue_24h = some 0 := by
  have h := C6_frame_and_empty_cycle FEE_PERCENT FEE_FLAT envEmptyCycle
    ⟨0, [], [], [], [], 0⟩ ⟨0, 0, 0, 0, 0⟩ [] ⟨[], [], [], []⟩
    [] (cycleOkGauges envEmptyCycle)
    (by with_unfolding_all decide) (by with_unfolding_all decide)
    (by with_unfolding_all decide) (by with_unfolding_all decide)
  exact (h.2.2.2.2.2.2 rfl rfl).1

/-- Counterexample for C8 as stated: a nickname-less price whose product
has no display name — the cache stores the raw absent name (`none`),
not the product reference, and resolution returns the price id. -/
theorem C8_counterexample :
    resolvePlanName envUnnamedProduct [] priceNoNickname =
      .ok ("price_1", [("prod_1", (none : Option String))], 1) ∧
    alookup [(("prod_1" : String), (none : Option String))] ("prod_1") = some none ∧
    (none : Option String) ≠ some "prod_1" :=
  ⟨by with_unfolding_all decide, by decide, by decide⟩

/-- C8 (amended): resolution returns the nickname when truthy; otherwise
it fetches the product's display name, stores the fetched value in the
cache as-is (even when empty or absent), and returns the three-tier
fallback nickname → fetched name → price id. -/
theorem C8_resolution (env : Env) (cache : ProductCache) (p : Price)
    (r : String) (cache' : ProductCache) (n : Nat)
    (hc : cacheConsistent env cache)
    (h : resolvePlanName env cache p = .ok (r, cache', n)) :
    (truthyStr p.nickname = true → r = p.nickname.getD "" ∧ cache' = cache ∧ n = 0) ∧
    (truthyStr p.nickname = false →
      ∀ nm, env.productName p.product = .ok nm →
        r = planFallback p.nickname nm p.id ∧
        alookup cache' p.product = some nm ∧ n = 1) := by
  unfold resolvePlanName at h
  by_cases hn : truthyStr p.nickname = true
  · rw [if_pos hn] at h
    injection h with h
    injection h with h1 h2
    injection h2 with h2 h3
    refine ⟨fun _ => ⟨h1.symm, h2.symm, h3.symm⟩, fun hfalse => ?_⟩
    rw [hn] at hfalse
    exact Bool.noConfusion hfalse
  · rw [if_neg hn] at h
    have hnf : truthyStr p.nickname = false := by
      cases hb : truthyStr p.nickname
      · rfl
      · exact absurd hb hn
    cases hpn : env.productName p.product with
    | error e =>
      rw [hpn, except_bind_err] at h
      exact Except.noConfusion h
    | ok fetched =>
      rw [hpn, except_bind_ok] at h
      unfold setdefault at h
      refine ⟨fun htrue => absurd htrue hn, fun _ => ?_⟩
      intro nm hnm
      injection hnm with hnm
      subst hnm
      cases hl : alookup cache p.product with
      | some v0 =>
        simp only [hl] at h
        injection h with h
        injection h with h1 h2
        injection h2 with h2 h3
        subst h2
        have hv0 : env.productName p.product = .ok v0 := hc _ (alookup_mem hl)
        rw [hpn] at hv0
        injection hv0 with hv0
        subst hv0
        have hpf : planFallback p.nickname fetched p.id =
            if truthyStr fetched = true then fetched.getD "" else p.id := by
          unfold planFallback
          rw [if_neg (by rw [hnf]; exact Bool.false_ne_true)]
        exact ⟨by rw [hpf]; exact h1.symm, by rw [hl], h3.symm⟩
      | none =>
        simp only [hl] at h
        injection h with h
        injection h with h1 h2
        injection h2 with h2 h3
        subst h2
        have hpf : planFallback p.nickname fetched p.id =
            if truthyStr fetched = true then fetched.getD "" else p.id := by
          unfold planFallback
          rw [if_neg (by rw [hnf]; exact Bool.false_ne_true)]
        exact ⟨by rw [hpf]; exact h1.symm, alookup_append_single hl fetched, h3.symm⟩

/-- Witness for C8: the fetched name is the empty string; it is stored
as-is and the price id wins the fallback. -/
theorem C8_witness :
    ("price_1" : String) =
      planFallback priceNoNickname.nickname (some "") priceNoNickname.id ∧
    alookup [(("prod_1" : String), some "")] ("prod_1") = some (some "") := by
  have h := (C8_resolution envEmptyNameProduct [] priceNoNickname "price_1"
      [("prod_1", some "")] 1 (by intro kv hkv; cases hkv)
      (by with_unfolding_all decide)).2 (by decide) (some "") (by decide)
  exact ⟨h.1, h.2.1⟩

/-- C10: a missing (None) or zero quantity is treated as quantity 1, and
a missing unit_amount as 0, in both the subscription item step and the
invoice line step. -/
theorem C10_quantity_and_amount_defaults (fp ff : ℚ) (env : Env) (st : SubState)
    (item : SubItem) (successes : List Charge) (invId : String) (ist : InvState)
    (line : InvoiceLine) :
    ((item.quantity = none ∨ item.quantity = some 0) →
      itemStep fp ff env st item =
        itemStep fp ff env st { item with quantity := some 1 }) ∧
    (item.price.unit_amount = none →
      itemStep fp ff env st item =
        itemStep fp ff env st
          { item with price := { item.price with unit_amount := some 0 } }) ∧
    ((line.quantity = none ∨ line.quantity = some 0) →
      lineStep fp ff successes invId ist line =
        lineStep fp ff successes invId ist { line with quantity := some 1 }) ∧
    (line.price.unit_amount = none →
      lineStep fp ff successes invId ist line =
        lineStep fp ff successes invId ist
          { line with price := { line.price with unit_amount := some 0 } }) := by
  obtain ⟨⟨pid, ua, nick, prod⟩, qty⟩ := item
  obtain ⟨ltype, ⟨lid, lua, lnick, lpname⟩, lqty⟩ := line
  refine ⟨?_, ?_, ?_, ?_⟩
  · intro hq
    rcases hq with hq | hq <;> simp only at hq <;> subst hq <;> rfl
  · intro hu
    simp only at hu
    subst hu
    rfl
  · intro hq
    rcases hq with hq | hq <;> simp only at hq <;> subst hq <;> rfl
  · intro hu
    simp only at hu
    subst hu
    rfl

/-- Witness for C10: a None quantity behaves as quantity 1 and a missing
unit_amount as amount 0. -/
theorem C10_witness :
    itemStep FEE_PERCENT FEE_FLAT envEmptyCycle ⟨0, [], [], [], [], 0⟩
        ⟨⟨"price_1", some 100, some "A", "prod_1"⟩, none⟩ =
      itemStep FEE_PERCENT FEE_FLAT envEmptyCycle ⟨0, [], [], [], [], 0⟩
        ⟨⟨"price_1", some 100, some "A", "prod_1"⟩, some 1⟩ ∧
    lineStep FEE_PERCENT FEE_FLAT [] "inv_1" ⟨[], [], [], []⟩
        ⟨"subscription", ⟨"price_1", none, some "A", none⟩, some 1⟩ =
      lineStep FEE_PERCENT FEE_FLAT [] "inv_1" ⟨[], [], [], []⟩
        ⟨"subscription", ⟨"price_1", some 0, some "A", none⟩, some 1⟩ := by
  have h := C10_quantity_and_amount_defaults FEE_PERCENT FEE_FLAT envEmptyCycle
    ⟨0, [], [], [], [], 0⟩ ⟨⟨"price_1", some 100, some "A", "prod_1"⟩, none⟩
    [] "inv_1" ⟨[], [], [], []⟩ ⟨"subscription", ⟨"price_1", none, some "A", none⟩, some 1⟩
  exact ⟨h.1 (Or.inl rfl), h.2.2.2 rfl⟩

end StripeExporter
